import Mathlib

/-!
Shallow embedding of `src/clone.py` (clone_canvas_enrollments): a script that
copies enrollment records from a source Canvas course to a target course.
Pure data flow is embedded directly; HTTP effects are modelled by an oracle
`Nat → AttemptResult` giving the outcome of the n-th POST request issued
during the run, and the requests themselves are collected as `Payload` values.
-/

namespace Clone

/-- A user profile as nested in an enrollment record (`e["user"]`).
`id` is accessed with `user["id"]` (required); `name`, `login_id`, `email`
are accessed with `.get`, hence optional. -/
structure User where
  id : Nat
  name : Option String
  login_id : Option String
  email : Option String
deriving DecidableEq, Repr

/-- An enrollment record as returned by the API. `user_id` is read by
`is_already_enrolled`; `user` and `type` are read by `main`
(`e["user"]`, `e.get("type", "StudentEnrollment")`). -/
structure Enrollment where
  user_id : Nat
  user : User
  type : Option String
deriving DecidableEq, Repr

/-- Characters treated as whitespace by Python's `\s` and `str.strip()`
(ASCII fragment). -/
def isPySpace (c : Char) : Bool :=
  c = ' ' || c = '\t' || c = '\n' || c = '\r' || c = '\x0b' || c = '\x0c'

/-- Computes `a.startsWith b` over character lists (used for the prefix semantics of
`re.match` after the fixed part of the pattern). -/
def startsWithChars : List Char → List Char → Bool
  | _, [] => true
  | [], _ :: _ => false
  | c :: cs, d :: ds => c = d && startsWithChars cs ds

/-- Python `s.split(",")`: splits at every comma; the empty string yields
one empty part. -/
def splitOnComma (l : List Char) : List (List Char) :=
  l.foldr
    (fun c acc =>
      match acc with
      | [] => [[c]]
      | a :: as => if c = ',' then [] :: a :: as else (c :: a) :: as)
    [[]]

/-- Embeds `re.match(r'\s*<([^>]+)>;\s*rel="next"', part)`: anchored prefix match;
returns the captured URL on success. The regex is deterministic: skip
whitespace, `<`, a non-empty run of non-`>` characters, `>;`, whitespace,
then the literal `rel="next"`. -/
def matchNextPart (part : List Char) : Option (List Char) :=
  match part.dropWhile isPySpace with
  | '<' :: rest =>
    let url := rest.takeWhile (fun c => c ≠ '>')
    if url = [] then none
    else
      match rest.dropWhile (fun c => c ≠ '>') with
      | '>' :: ';' :: rest2 =>
        if startsWithChars (rest2.dropWhile isPySpace) "rel=\"next\"".toList
        then some url else none
      | _ => none
  | _ => none

/-- Embeds `get_next_link(link_header)`: `None` (or the empty string) gives `None`;
otherwise the first comma-separated part matching the `rel="next"` pattern
yields its URL. -/
def get_next_link (linkHeader : Option (List Char)) : Option (List Char) :=
  match linkHeader with
  | none => none
  | some h => if h = [] then none else (splitOnComma h).findSome? matchNextPart

/-- One successful HTTP response of the enrollments endpoint: a JSON array of
enrollment records and the optional `Link` header. -/
structure PageResponse where
  body : List Enrollment
  linkHeader : Option (List Char)
deriving DecidableEq, Repr

/-- Embeds `get_all_enrollments`: the `while url:` loop, fed the sequence of
responses the server returns to the successive GETs. Consumes responses
until one has no next-link; returns `none` if the supplied sequence is
exhausted while a next-link is still pending (the loop would issue another
request). -/
def get_all_enrollments : List PageResponse → Option (List Enrollment)
  | [] => none
  | p :: ps =>
    match get_next_link p.linkHeader with
    | none => some p.body
    | some _ => (get_all_enrollments ps).map (fun r => p.body ++ r)

/-- Embeds `is_already_enrolled(enrollments_target, user_id)`:
`any(e["user_id"] == user_id for e in enrollments_target)`. -/
def is_already_enrolled (enrollments_target : List Enrollment) (user_id : Nat) : Bool :=
  enrollments_target.any (fun e => e.user_id == user_id)

/-- Outcome of one `requests.post` + `raise_for_status()`: success, or an
`HTTPError` carrying the response's status code and body text. -/
inductive AttemptResult where
  | ok
  | httpError (status : Nat) (text : String)
deriving DecidableEq, Repr

/-- The JSON payload of an enrollment POST, together with the target course
of the URL it is sent to. -/
structure Payload where
  course : Nat
  user_id : Nat
  type : String
  enrollment_state : String
  notify : Bool
deriving DecidableEq, Repr

/-- One row of the module-level `ERROR_LOG`. -/
structure ErrorRecord where
  user_id : Nat
  name : String
  email : String
  enrollment_type : String
  status : Nat
  error_message : String
  attempt : String
deriving DecidableEq, Repr

/-- Python `user.get("name", "Unknown Name")`. -/
def userName (u : User) : String := u.name.getD "Unknown Name"

/-- Python truthiness filter for an optional string: `None` and `""` are
falsy. -/
def truthy (o : Option String) : Option String :=
  o.bind (fun s => if s = "" then none else some s)

/-- Python `user.get("login_id") or user.get("email") or "No Email"`. -/
def userEmail (u : User) : String :=
  match truthy u.login_id with
  | some s => s
  | none =>
    match truthy u.email with
    | some s => s
    | none => "No Email"

/-- Python `str.strip()` (ASCII whitespace). -/
def pyStrip (l : List Char) : List Char :=
  ((l.dropWhile isPySpace).reverse.dropWhile isPySpace).reverse

/-- Python `resp.text.strip().replace("\n", " ")`. -/
def normMessage (t : String) : String :=
  String.mk ((pyStrip t.toList).map (fun c => if c = '\n' then ' ' else c))

/-- The `ERROR_LOG.append({...})` dictionary built in `enroll_user`. -/
def mkErrorRecord (u : User) (etype : String) (status : Nat) (text : String)
    (attempt : String) : ErrorRecord :=
  ⟨u.id, userName u, userEmail u, etype, status, normMessage text, attempt⟩

/-- The `payload` dictionary built in `enroll_user`. -/
def mkPayload (target_course_id : Nat) (u : User) (etype : String) : Payload :=
  ⟨target_course_id, u.id, etype, "active", false⟩

/-- Result of one `enroll_user` call: the boolean return value, the
`ErrorRecord`s appended to `ERROR_LOG` (in order), and the POST requests
issued (in order). -/
structure EnrollResult where
  success : Bool
  errors : List ErrorRecord
  posts : List Payload
deriving DecidableEq, Repr

/-- Embeds `enroll_user(target_course_id, user, enrollment_type, dry_run)`.
`attempts k` is the outcome of the k-th POST this call issues (the call
makes at most two). Dry-run returns `True` with no request and no log entry.
Otherwise: try 1; on success return `True`. On `HTTPError`: append a
`"first"` record, sleep, try 2; on success return `True`, on `HTTPError`
append a `"retry"` record and return `False`. -/
def enroll_user (target_course_id : Nat) (u : User) (enrollment_type : String)
    (dry_run : Bool) (attempts : Nat → AttemptResult) : EnrollResult :=
  if dry_run then ⟨true, [], []⟩
  else
    let p := mkPayload target_course_id u enrollment_type
    match attempts 0 with
    | .ok => ⟨true, [], [p]⟩
    | .httpError s1 t1 =>
      let r1 := mkErrorRecord u enrollment_type s1 t1 "first"
      match attempts 1 with
      | .ok => ⟨true, [r1], [p, p]⟩
      | .httpError s2 t2 =>
        ⟨false, [r1, mkErrorRecord u enrollment_type s2 t2 "retry"], [p, p]⟩

/-- What `write_error_csv` does: either no file, or one file with a name and
a list of rows (each row a list of textual fields). -/
inductive CsvOutput where
  | noFile
  | file (filename : String) (rows : List (List String))
deriving DecidableEq, Repr

/-- The `fieldnames` of the `csv.DictWriter`, also the header row. -/
def errorHeader : List String :=
  ["user_id", "name", "email", "enrollment_type", "status", "error_message",
   "attempt"]

/-- The CSV row written for one `ErrorRecord` (`writer.writerows`). -/
def recordRow (r : ErrorRecord) : List String :=
  [toString r.user_id, r.name, r.email, r.enrollment_type, toString r.status,
   r.error_message, r.attempt]

/-- Embeds `write_error_csv()`: nothing when `ERROR_LOG` is empty, otherwise the
fixed-name file `enrollment_errors.csv` with the header row followed by one
row per record in log order. -/
def write_error_csv (error_log : List ErrorRecord) : CsvOutput :=
  if error_log.isEmpty then .noFile
  else .file "enrollment_errors.csv" (errorHeader :: error_log.map recordRow)

/-- Python `e.get("type", "StudentEnrollment")` in `main`. -/
def enrollmentTypeOf (e : Enrollment) : String :=
  e.type.getD "StudentEnrollment"

/-- The mutable state of `main`'s per-enrollment loop: the three counters,
the accumulated `ERROR_LOG`, and the POSTs issued so far. -/
structure RunState where
  ok : Nat
  skip : Nat
  failed : Nat
  errors : List ErrorRecord
  posts : List Payload
deriving DecidableEq, Repr

/-- The initial state of `main`'s loop. -/
def initState : RunState := ⟨0, 0, 0, [], []⟩

/-- One iteration of `main`'s `for e in source_enrollments:` loop.
`oracle n` is the outcome of the n-th POST of the whole run; an
`enroll_user` call starting after `st.posts` requests reads
`oracle (st.posts.length + k)` for its k-th attempt. -/
def processOne (target_course : Nat) (target_enrollments : List Enrollment)
    (dry_run : Bool) (oracle : Nat → AttemptResult) (st : RunState)
    (e : Enrollment) : RunState :=
  if is_already_enrolled target_enrollments e.user.id then
    { st with skip := st.skip + 1 }
  else
    let r := enroll_user target_course e.user (enrollmentTypeOf e) dry_run
      (fun k => oracle (st.posts.length + k))
    { ok := st.ok + (if r.success then 1 else 0),
      skip := st.skip,
      failed := st.failed + (if r.success then 0 else 1),
      errors := st.errors ++ r.errors,
      posts := st.posts ++ r.posts }

/-- The loop of `main` run from an arbitrary intermediate state. -/
def runFrom (target_course : Nat) (target_enrollments : List Enrollment)
    (dry_run : Bool) (oracle : Nat → AttemptResult)
    (source_enrollments : List Enrollment) (st : RunState) : RunState :=
  source_enrollments.foldl
    (processOne target_course target_enrollments dry_run oracle) st

/-- The loop of `main` (lines 187–214): fold `processOne` over the fetched
source roster starting from zeroed counters and an empty error log. -/
def runClone (target_course : Nat) (source_enrollments : List Enrollment)
    (target_enrollments : List Enrollment) (dry_run : Bool)
    (oracle : Nat → AttemptResult) : RunState :=
  runFrom target_course target_enrollments dry_run oracle source_enrollments
    initState

/-! ## Claim theorems -/

/-- Claim C5 (confirmed): `is_already_enrolled` is a pure function returning
`true` iff some record in the target enrollment list has `user_id` equal to
the given user id; in particular it returns `false` for every user id when
the target list is empty. -/
theorem is_already_enrolled_iff (tgt : List Enrollment) (uid : Nat) :
    (is_already_enrolled tgt uid = true ↔ ∃ e ∈ tgt, e.user_id = uid) ∧
    is_already_enrolled ([] : List Enrollment) uid = false := by
  refine ⟨?_, rfl⟩
  simp [is_already_enrolled, List.any_eq_true]

/-- Claim C4 (confirmed): with the dry-run flag set, `enroll_user` issues no
HTTP request, appends no `ErrorRecord`, and returns success, for every user
and enrollment type. -/
theorem enroll_user_dry_run (tc : Nat) (u : User) (etype : String)
    (attempts : Nat → AttemptResult) :
    enroll_user tc u etype true attempts = ⟨true, [], []⟩ := rfl

/-- Claim C6 (confirmed): a non-dry-run `enroll_user` call issues at most two
HTTP enrollment requests, whatever the outcomes of the attempts. -/
theorem enroll_user_at_most_two_posts (tc : Nat) (u : User) (etype : String)
    (attempts : Nat → AttemptResult) :
    (enroll_user tc u etype false attempts).posts.length ≤ 2 := by
  unfold enroll_user
  cases h0 : attempts 0 <;> cases h1 : attempts 1 <;> simp [h0, h1]

/-- Claim C2 (confirmed): in a non-dry-run `enroll_user` call, if both
attempts fail then exactly the two `ErrorRecord`s labelled `"first"` and
`"retry"` are appended and the call returns failure; if the first fails and
the second succeeds then exactly the `"first"` record is appended and the
call returns success; and `main`'s loop then continues with the remaining
source enrollments rather than aborting. -/
theorem enroll_user_retry_policy (tc : Nat) (u : User) (etype : String)
    (attempts : Nat → AttemptResult) :
    (∀ s1 t1 s2 t2, attempts 0 = .httpError s1 t1 →
      attempts 1 = .httpError s2 t2 →
      enroll_user tc u etype false attempts =
        ⟨false,
         [mkErrorRecord u etype s1 t1 "first",
          mkErrorRecord u etype s2 t2 "retry"],
         [mkPayload tc u etype, mkPayload tc u etype]⟩) ∧
    (∀ s1 t1, attempts 0 = .httpError s1 t1 → attempts 1 = .ok →
      enroll_user tc u etype false attempts =
        ⟨true, [mkErrorRecord u etype s1 t1 "first"],
         [mkPayload tc u etype, mkPayload tc u etype]⟩) ∧
    (∀ (tc2 : Nat) (tgt : List Enrollment) (dry : Bool)
      (oracle : Nat → AttemptResult) (st : RunState) (e : Enrollment)
      (rest : List Enrollment),
      runFrom tc2 tgt dry oracle (e :: rest) st =
        runFrom tc2 tgt dry oracle rest (processOne tc2 tgt dry oracle st e)) := by
  refine ⟨?_, ?_, fun _ _ _ _ _ _ _ => rfl⟩
  · intro s1 t1 s2 t2 h0 h1
    simp [enroll_user, h0, h1]
  · intro s1 t1 h0 h1
    simp [enroll_user, h0, h1]

/-- Concrete user for witnesses. -/
def uW : User := ⟨5, some "Wit Ness", some "wn@example.com", none⟩

/-- Concrete attempt oracle that fails twice with distinct errors. -/
def attW : Nat → AttemptResult :=
  fun n => if n = 0 then .httpError 400 "bad" else .httpError 500 "worse"

/-- Witness for C2: both attempts of `attW` fail, so `enroll_user` returns
failure with the two labelled records. -/
theorem enroll_user_retry_policy_witness :
    enroll_user 7 uW "StudentEnrollment" false attW =
      ⟨false,
       [mkErrorRecord uW "StudentEnrollment" 400 "bad" "first",
        mkErrorRecord uW "StudentEnrollment" 500 "worse" "retry"],
       [mkPayload 7 uW "StudentEnrollment", mkPayload 7 uW "StudentEnrollment"]⟩ :=
  (enroll_user_retry_policy 7 uW "StudentEnrollment" attW).1 400 "bad" 500 "worse"
    rfl rfl

/-- Claim C7 (confirmed): with a non-empty error log, `write_error_csv`
writes the fixed-name file consisting of the header row
`user_id, name, email, enrollment_type, status, error_message, attempt`
followed by one row per record in accumulation order (so one more row than
records); with an empty log it writes no file. -/
theorem write_error_csv_spec (log : List ErrorRecord) :
    (log ≠ [] →
      write_error_csv log =
        .file "enrollment_errors.csv" (errorHeader :: log.map recordRow) ∧
      (errorHeader :: log.map recordRow).length = log.length + 1) ∧
    (log = [] → write_error_csv log = .noFile) := by
  constructor
  · intro h
    refine ⟨?_, by simp⟩
    simp [write_error_csv, h]
  · intro h
    subst h
    rfl

/-- Concrete error record for the C7 witness. -/
def rW : ErrorRecord :=
  ⟨5, "Wit Ness", "wn@example.com", "StudentEnrollment", 400, "bad", "first"⟩

/-- Witness for C7: a one-record log produces header plus one row; the empty
log produces no file. -/
theorem write_error_csv_spec_witness :
    write_error_csv [rW] =
      .file "enrollment_errors.csv" [errorHeader, recordRow rW] ∧
    write_error_csv [] = .noFile :=
  ⟨((write_error_csv_spec [rW]).1 (by simp)).1, (write_error_csv_spec []).2 rfl⟩

/-- UserA of the end-to-end scenario (id 1, a student). -/
def userA : User := ⟨1, some "User A", some "usera@example.com", none⟩

/-- UserB of the end-to-end scenario (id 2, a TA). -/
def userB : User := ⟨2, some "User B", some "userb@example.com", none⟩

/-- Source roster of the end-to-end scenario. -/
def sourceRoster : List Enrollment :=
  [⟨1, userA, some "StudentEnrollment"⟩, ⟨2, userB, some "TaEnrollment"⟩]

/-- Target roster of the end-to-end scenario: already contains UserA. -/
def targetRoster : List Enrollment := [⟨1, userA, some "StudentEnrollment"⟩]

/-- Oracle under which every enrollment request succeeds at once. -/
def okOracle : Nat → AttemptResult := fun _ => .ok

/-- Claim C8 (confirmed): in the concrete run with source roster
[UserA (id 1), UserB (id 2)], target already containing UserA, and UserB's
request succeeding on the first attempt, the driver skips UserA, enrolls
UserB, ends with ok = 1, skipped = 1, failed = 0, and writes no error
file. -/
theorem scenario_run :
    (runClone 77 sourceRoster targetRoster false okOracle).ok = 1 ∧
    (runClone 77 sourceRoster targetRoster false okOracle).skip = 1 ∧
    (runClone 77 sourceRoster targetRoster false okOracle).failed = 0 ∧
    (runClone 77 sourceRoster targetRoster false okOracle).posts =
      [mkPayload 77 userB "TaEnrollment"] ∧
    write_error_csv (runClone 77 sourceRoster targetRoster false okOracle).errors
      = .noFile :=
  ⟨rfl, rfl, rfl, rfl, rfl⟩

/-- Each `processOne` step increments exactly one of the three counters. -/
theorem processOne_counts (tc : Nat) (tgt : List Enrollment) (dry : Bool)
    (oracle : Nat → AttemptResult) (st : RunState) (e : Enrollment) :
    (processOne tc tgt dry oracle st e).ok
      + (processOne tc tgt dry oracle st e).skip
      + (processOne tc tgt dry oracle st e).failed
      = st.ok + st.skip + st.failed + 1 := by
  unfold processOne
  cases is_already_enrolled tgt e.user.id <;> simp
  · cases (enroll_user tc e.user (enrollmentTypeOf e) dry
      (fun k => oracle (st.posts.length + k))).success <;> simp <;> omega
  · omega

/-- Running `runFrom` adds the number of processed records to the counter sum. -/
theorem runFrom_counts (tc : Nat) (tgt : List Enrollment) (dry : Bool)
    (oracle : Nat → AttemptResult) :
    ∀ (src : List Enrollment) (st : RunState),
      (runFrom tc tgt dry oracle src st).ok
        + (runFrom tc tgt dry oracle src st).skip
        + (runFrom tc tgt dry oracle src st).failed
        = st.ok + st.skip + st.failed + src.length := by
  intro src
  induction src with
  | nil => intro st; simp [runFrom]
  | cons e src ih =>
    intro st
    have h1 : runFrom tc tgt dry oracle (e :: src) st =
        runFrom tc tgt dry oracle src (processOne tc tgt dry oracle st e) := rfl
    rw [h1, ih, processOne_counts]
    simp
    omega

/-- Claim C9 (confirmed): every source record increments exactly one of the
three counters, so at the summary ok + skipped + failed equals the length of
the fetched source roster. -/
theorem counts_partition (tc : Nat) (src tgt : List Enrollment) (dry : Bool)
    (oracle : Nat → AttemptResult) :
    (runClone tc src tgt dry oracle).ok
      + (runClone tc src tgt dry oracle).skip
      + (runClone tc src tgt dry oracle).failed
      = src.length := by
  have h := runFrom_counts tc tgt dry oracle src initState
  simpa [runClone, initState] using h

/-- Every request an `enroll_user` call issues carries the payload built from
its arguments. -/
theorem enroll_user_posts_eq (tc : Nat) (u : User) (etype : String)
    (dry : Bool) (attempts : Nat → AttemptResult) :
    ∀ p ∈ (enroll_user tc u etype dry attempts).posts, p = mkPayload tc u etype := by
  unfold enroll_user
  cases dry
  · cases h0 : attempts 0 <;> cases h1 : attempts 1 <;> simp [h0, h1]
  · simp

/-- Claim C10 (confirmed): a source record lacking the enrollment type field
is given the default type `"StudentEnrollment"` and processed exactly as a
record carrying that type explicitly — it is neither failed nor skipped on
account of the missing field, and when its user is not already enrolled, the
requests issued for it all carry the default type. -/
theorem default_type_used (tc : Nat) (tgt : List Enrollment) (dry : Bool)
    (oracle : Nat → AttemptResult) (st : RunState) (e : Enrollment)
    (h : e.type = none) :
    enrollmentTypeOf e = "StudentEnrollment" ∧
    processOne tc tgt dry oracle st e =
      processOne tc tgt dry oracle st { e with type := some "StudentEnrollment" } ∧
    (is_already_enrolled tgt e.user.id = false →
      ∀ p ∈ (processOne tc tgt dry oracle st e).posts.drop st.posts.length,
        p.type = "StudentEnrollment") := by
  have htype : enrollmentTypeOf e = "StudentEnrollment" := by
    simp [enrollmentTypeOf, h]
  refine ⟨htype, ?_, ?_⟩
  · simp [processOne, enrollmentTypeOf, h]
  · intro hmem p hp
    rw [processOne, hmem] at hp
    simp only [Bool.false_eq_true, if_false, List.drop_left] at hp
    rw [htype] at hp
    have hpay := enroll_user_posts_eq tc e.user "StudentEnrollment" dry
      (fun k => oracle (st.posts.length + k)) p hp
    rw [hpay]
    rfl

/-- Enrollment without a type field, for the C10 witness. -/
def eNoType : Enrollment := ⟨5, uW, none⟩

/-- Witness for C10: the no-type record is processed with the default type;
both enrollment attempts' payloads carry `"StudentEnrollment"`. -/
theorem default_type_used_witness :
    enrollmentTypeOf eNoType = "StudentEnrollment" ∧
    processOne 7 [] false attW initState eNoType =
      processOne 7 [] false attW initState
        { eNoType with type := some "StudentEnrollment" } ∧
    (is_already_enrolled [] eNoType.user.id = false →
      ∀ p ∈ (processOne 7 [] false attW initState eNoType).posts.drop
        initState.posts.length, p.type = "StudentEnrollment") :=
  default_type_used 7 [] false attW initState eNoType rfl

/-- The rows of a `CsvOutput` (none when no file is written). -/
def csvRows : CsvOutput → List (List String)
  | .noFile => []
  | .file _ rows => rows

/-- First user of the double-failure run. -/
def failUserA : User := ⟨1, some "Fail A", some "fa@example.com", none⟩

/-- Second user of the double-failure run. -/
def failUserB : User := ⟨2, some "Fail B", some "fb@example.com", none⟩

/-- Source roster of the double-failure run. -/
def failSource : List Enrollment :=
  [⟨1, failUserA, some "StudentEnrollment"⟩,
   ⟨2, failUserB, some "StudentEnrollment"⟩]

/-- Oracle under which every POST fails with HTTP 400. -/
def alwaysFail : Nat → AttemptResult := fun _ => .httpError 400 "Bad Request"

/-- Counterexample to claim C1 as stated: in the run where exactly two users
each fail both enrollment attempts (empty target, every request failing),
the error file has 5 rows — one header plus four data rows, two per user —
not the claimed one header plus two data rows (3 rows). -/
theorem two_double_failures_counterexample :
    (runClone 9 failSource [] false alwaysFail).failed = 2 ∧
    (csvRows (write_error_csv (runClone 9 failSource [] false alwaysFail).errors)).length
      = 5 ∧
    ¬ (csvRows (write_error_csv (runClone 9 failSource [] false alwaysFail).errors)).length
      = 1 + 2 :=
  ⟨rfl, rfl, by decide⟩

/-- Claim C1 (amended): if exactly two users each fail both enrollment
attempts during a run (and no other failures occur), the error file contains
one header row plus exactly four data rows — the `"first"` and `"retry"`
records of the first user followed by those of the second — in the order the
failures occurred. -/
theorem error_csv_two_double_failures (tc : Nat) (tgt : List Enrollment)
    (e1 e2 : Enrollment) (oracle : Nat → AttemptResult)
    (s : Nat → Nat) (t : Nat → String)
    (hfail : ∀ n, oracle n = .httpError (s n) (t n))
    (h1 : is_already_enrolled tgt e1.user.id = false)
    (h2 : is_already_enrolled tgt e2.user.id = false) :
    (runClone tc [e1, e2] tgt false oracle).errors =
      [mkErrorRecord e1.user (enrollmentTypeOf e1) (s 0) (t 0) "first",
       mkErrorRecord e1.user (enrollmentTypeOf e1) (s 1) (t 1) "retry",
       mkErrorRecord e2.user (enrollmentTypeOf e2) (s 2) (t 2) "first",
       mkErrorRecord e2.user (enrollmentTypeOf e2) (s 3) (t 3) "retry"] ∧
    write_error_csv (runClone tc [e1, e2] tgt false oracle).errors =
      .file "enrollment_errors.csv"
        (errorHeader ::
          [mkErrorRecord e1.user (enrollmentTypeOf e1) (s 0) (t 0) "first",
           mkErrorRecord e1.user (enrollmentTypeOf e1) (s 1) (t 1) "retry",
           mkErrorRecord e2.user (enrollmentTypeOf e2) (s 2) (t 2) "first",
           mkErrorRecord e2.user (enrollmentTypeOf e2) (s 3) (t 3) "retry"].map
            recordRow) := by
  have herr : (runClone tc [e1, e2] tgt false oracle).errors =
      [mkErrorRecord e1.user (enrollmentTypeOf e1) (s 0) (t 0) "first",
       mkErrorRecord e1.user (enrollmentTypeOf e1) (s 1) (t 1) "retry",
       mkErrorRecord e2.user (enrollmentTypeOf e2) (s 2) (t 2) "first",
       mkErrorRecord e2.user (enrollmentTypeOf e2) (s 3) (t 3) "retry"] := by
    simp [runClone, runFrom, processOne, h1, h2, enroll_user, hfail, initState]
  refine ⟨herr, ?_⟩
  rw [herr]
  rfl

/-- Witness for the amended C1: the concrete double-failure run yields the
header plus the four explicit data rows. -/
theorem error_csv_two_double_failures_witness :
    (runClone 9 failSource [] false alwaysFail).errors =
      [mkErrorRecord failUserA "StudentEnrollment" 400 "Bad Request" "first",
       mkErrorRecord failUserA "StudentEnrollment" 400 "Bad Request" "retry",
       mkErrorRecord failUserB "StudentEnrollment" 400 "Bad Request" "first",
       mkErrorRecord failUserB "StudentEnrollment" 400 "Bad Request" "retry"] ∧
    write_error_csv (runClone 9 failSource [] false alwaysFail).errors =
      .file "enrollment_errors.csv"
        (errorHeader ::
          [mkErrorRecord failUserA "StudentEnrollment" 400 "Bad Request" "first",
           mkErrorRecord failUserA "StudentEnrollment" 400 "Bad Request" "retry",
           mkErrorRecord failUserB "StudentEnrollment" 400 "Bad Request" "first",
           mkErrorRecord failUserB "StudentEnrollment" 400 "Bad Request" "retry"].map
            recordRow) :=
  error_csv_two_double_failures 9 [] ⟨1, failUserA, some "StudentEnrollment"⟩
    ⟨2, failUserB, some "StudentEnrollment"⟩ alwaysFail
    (fun _ => 400) (fun _ => "Bad Request") (fun _ => rfl) rfl rfl

/-- If `get_all_enrollments` returns a list, the consumed responses are a
prefix ending at the first response without a next-link, and the result is
the concatenation of their bodies (hence of summed length). -/
theorem get_all_some_spec :
    ∀ (ps : List PageResponse) (r : List Enrollment),
      get_all_enrollments ps = some r →
      ∃ pre p post, ps = pre ++ p :: post ∧
        (∀ q ∈ pre, get_next_link q.linkHeader ≠ none) ∧
        get_next_link p.linkHeader = none ∧
        r = ((pre ++ [p]).map PageResponse.body).flatten ∧
        r.length = ((pre ++ [p]).map (fun q => q.body.length)).sum := by
  intro ps
  induction ps with
  | nil => intro r h; exact absurd h (by simp [get_all_enrollments])
  | cons p ps ih =>
    intro r h
    unfold get_all_enrollments at h
    cases hp : get_next_link p.linkHeader with
    | none =>
      rw [hp] at h
      simp only [Option.some.injEq] at h
      refine ⟨[], p, ps, rfl, by simp, hp, ?_, ?_⟩ <;> simp [← h]
    | some u =>
      rw [hp] at h
      simp only [Option.map_eq_some'] at h
      obtain ⟨r', hr', rfl⟩ := h
      obtain ⟨pre, q, post, hps, hpre, hq, hflat, hlen⟩ := ih r' hr'
      refine ⟨p :: pre, q, post, by simp [hps], ?_, hq, ?_, ?_⟩
      · intro x hx
        rcases List.mem_cons.mp hx with hx0 | hx1
        · rw [hx0, hp]; exact fun hc => Option.noConfusion hc
        · exact hpre x hx1
      · simp [hflat]
      · simp [hlen]

/-- While every response still carries a next-link, the fetch loop keeps
requesting: a response sequence in which no page lacks a next-link is
exhausted without the loop finishing. -/
theorem get_all_none_of_all_next :
    ∀ ps : List PageResponse,
      (∀ p ∈ ps, get_next_link p.linkHeader ≠ none) →
      get_all_enrollments ps = none := by
  intro ps
  induction ps with
  | nil => intro _; rfl
  | cons p ps ih =>
    intro h
    unfold get_all_enrollments
    cases hp : get_next_link p.linkHeader with
    | none => exact absurd hp (h p (by simp))
    | some u =>
      rw [ih (fun q hq => h q (by simp [hq]))]
      rfl

/-- The helper `get_next_link` yields nothing exactly when no comma-separated part of
the Link header matches the `rel="next"` pattern. -/
theorem next_link_none_iff (h : List Char) :
    get_next_link (some h) = none ↔
      ∀ part ∈ splitOnComma h, matchNextPart part = none := by
  by_cases hh : h = []
  · subst hh
    constructor
    · intro _ part hpart
      have hsplit : splitOnComma ([] : List Char) = [[]] := rfl
      rw [hsplit] at hpart
      simp only [List.mem_singleton] at hpart
      rw [hpart]
      rfl
    · intro _
      rfl
  · simp [get_next_link, hh, List.findSome?_eq_none_iff]

/-- Claim C3 (confirmed): the list returned by the paged fetcher is the
concatenation of the per-page JSON arrays (so its length is the sum of the
per-page lengths), and the fetch loop stops exactly at the first response
whose Link header contains no `rel="next"` entry — in particular it never
stops while every response still carries one. -/
theorem fetcher_pagination_spec :
    (∀ (ps : List PageResponse) (r : List Enrollment),
      get_all_enrollments ps = some r →
      ∃ pre p post, ps = pre ++ p :: post ∧
        (∀ q ∈ pre, get_next_link q.linkHeader ≠ none) ∧
        get_next_link p.linkHeader = none ∧
        r = ((pre ++ [p]).map PageResponse.body).flatten ∧
        r.length = ((pre ++ [p]).map (fun q => q.body.length)).sum) ∧
    (∀ ps : List PageResponse,
      (∀ p ∈ ps, get_next_link p.linkHeader ≠ none) →
      get_all_enrollments ps = none) ∧
    (∀ h : List Char, get_next_link (some h) = none ↔
      ∀ part ∈ splitOnComma h, matchNextPart part = none) :=
  ⟨get_all_some_spec, get_all_none_of_all_next, next_link_none_iff⟩

/-- Record on page 1 of the pagination witness. -/
def enW1 : Enrollment := ⟨11, ⟨11, none, none, none⟩, none⟩

/-- First record on page 2 of the pagination witness. -/
def enW2 : Enrollment := ⟨12, ⟨12, none, none, none⟩, none⟩

/-- Second record on page 2 of the pagination witness. -/
def enW3 : Enrollment := ⟨13, ⟨13, none, none, none⟩, none⟩

/-- Page 1: one record, Link header pointing at a next page. -/
def pageW1 : PageResponse :=
  ⟨[enW1], some "<https://example.test/p2>; rel=\"next\"".toList⟩

/-- Page 2: two records, no Link header. -/
def pageW2 : PageResponse := ⟨[enW2, enW3], none⟩

/-- Witness for C3: a two-page fetch returns the three records in page
order, the structural decomposition holds there, and a sequence whose every
page still has a next-link leaves the loop unfinished. -/
theorem fetcher_pagination_spec_witness :
    get_all_enrollments [pageW1, pageW2] = some [enW1, enW2, enW3] ∧
    (∃ pre p post, [pageW1, pageW2] = pre ++ p :: post ∧
      (∀ q ∈ pre, get_next_link q.linkHeader ≠ none) ∧
      get_next_link p.linkHeader = none ∧
      [enW1, enW2, enW3] = ((pre ++ [p]).map PageResponse.body).flatten ∧
      ([enW1, enW2, enW3] : List Enrollment).length
        = ((pre ++ [p]).map (fun q => q.body.length)).sum) ∧
    get_all_enrollments [pageW1] = none :=
  ⟨rfl,
   fetcher_pagination_spec.1 [pageW1, pageW2] [enW1, enW2, enW3] rfl,
   fetcher_pagination_spec.2.1 [pageW1] (by
     intro p hp
     rw [List.mem_singleton] at hp
     subst hp
     intro hc
     have hx : get_next_link pageW1.linkHeader
         = some "https://example.test/p2".toList := rfl
     rw [hx] at hc
     exact Option.noConfusion hc)⟩

end Clone
